import Mathlib

/-!
Verification of the otg-scrapper-backend scraping service against its
specification.  The repository holds four JavaScript variants of the same
Express service:

  * `src/index.js`           — retry/browser-fallback fetcher, stateless CSV dump
  * `src/unnamed/part_000`   — single-attempt fetcher, stateless CSV dump
  * `src/unnamed/part_001`   — persistent dataset, dedup, category scrape
  * `src/unnamed/part_002`   — persistent dataset, name-keyed dedup

The definitions below are shallow embeddings of those functions.  The DOM
layer (cheerio) is abstracted by `ListingNode`: one value per node matched by
the listing selector, carrying the text of each sub-selector the code reads.
`broken = some m` models a node on which reading the fields throws with
message `m` (live markup is untrusted, and the per-item `try`/`catch` in the
source exists exactly for that case).  The HTTP transport is abstracted by a
function from the attempt number (or page number) to an outcome, mirroring
the spec, which treats transport as an external collaborator.
-/

namespace OtgScraper

/-- One candidate node matched by the directory-listing selector
(`.company.with_img`, `.company.g_0`, …).  Field values are the texts the
source reads off the node: `nameText` for `.company_header h3 a`,
`addressText` for `.company_header .address`, `phoneSpan` for
`.cont .s:has(.fa-phone) span` (`none` when the selector matches nothing),
`logoPresent`/`dataBg`/`cssBgUrl` for the `.logo.lazy-img` element, its
`data-bg` attribute (`""` when absent) and the URL extracted from its CSS
`background-image` fallback, `hasWithImg` for `hasClass('with_img')` and
`verifiedBadge` for the `.cont u.v:has(.fa-check-circle)` badge.
`broken = some m` models a node whose field reads throw with message `m`. -/
structure ListingNode where
  isAd : Bool
  broken : Option String
  nameText : String
  addressText : String
  phoneSpan : Option String
  logoPresent : Bool
  dataBg : String
  cssBgUrl : String
  hasWithImg : Bool
  verifiedBadge : Bool
deriving Repr, DecidableEq

/-- One business record.  `imageUrl = none` renders the JavaScript `null` of
`src/index.js`; the persistent variants store a plain string there (possibly
empty), embedded as `some`.  `category` is populated only by the
category-scoped scrape and `dateScraped` only by the persistent variants. -/
structure Business where
  name : String
  address : String
  phone : String
  imageUrl : Option String
  verified : Bool
  category : Option String
  sourcePage : Nat
  dateScraped : Option String
deriving Repr, DecidableEq

/-- One page-level failure, `{ page, url, error: error.message }` in every
variant. -/
structure ScrapeError where
  page : Nat
  url : String
  error : String
deriving Repr, DecidableEq

/-- The deduplication key, `` `${name}|${address}` `` at part_001 lines 76 and
226. -/
def duplicateKey (name address : String) : String :=
  name ++ "|" ++ address

/-- JavaScript `s.trim()`: strip leading and trailing whitespace. -/
def jsTrim (s : String) : String :=
  ⟨((s.data.dropWhile Char.isWhitespace).reverse.dropWhile
    Char.isWhitespace).reverse⟩

/-- JavaScript `s.startsWith(pre)`. -/
def jsStartsWith (s pre : String) : Bool :=
  pre.data.isPrefixOf s.data

/-- JavaScript `s.endsWith(suf)`. -/
def jsEndsWith (s suf : String) : Bool :=
  suf.data.isSuffixOf s.data

/-- The phone extraction shared by all variants: empty unless the
phone-icon-adjacent span exists, otherwise its trimmed text. -/
def extractPhone (n : ListingNode) : String :=
  match n.phoneSpan with
  | none => ""
  | some t => jsTrim t

/-- JavaScript `String.prototype.includes` on lists of characters. -/
def includesAux (pat : List Char) : List Char → Bool
  | [] => pat.isEmpty
  | c :: cs => pat.isPrefixOf (c :: cs) || includesAux pat cs

/-- JavaScript `s.includes(pat)`. -/
def strIncludes (s pat : String) : Bool :=
  includesAux pat.toList s.toList

/-- Base-URL normalisation shared by all variants:
`baseUrl.endsWith('/') ? baseUrl : baseUrl + '/'`. -/
def normalizeBaseUrl (baseUrl : String) : String :=
  if jsEndsWith baseUrl "/" then baseUrl else baseUrl ++ "/"

/-- Page URL construction, `` `${normalizedBaseUrl}${page}` ``. -/
def pageUrl (normalizedBaseUrl : String) (page : Nat) : String :=
  normalizedBaseUrl ++ toString page

/-- The list of pages a range run iterates, `startPage, …, endPage`. -/
def pageRange (startPage endPage : Nat) : List Nat :=
  List.range' startPage (endPage + 1 - startPage)

/-! ## Fetch strategy (`src/index.js`, `scrapePage` and `scrapeWithBrowser`)

`transport n` is the outcome of the n-th lightweight axios attempt
(`.ok markup` for a 2xx response with body, `.error msg` for a timeout,
non-2xx status or network error); `browser` is the outcome of the puppeteer
fallback.  The trace records the result, the last lightweight attempt made,
the backoff delays waited (in milliseconds, in order) and whether the
browser fallback ran. -/

deriving instance DecidableEq for Except

/-- Trace of one `scrapePage(url, pageNumber)` call. -/
structure FetchTrace where
  result : Except String String
  lastAttempt : Nat
  delays : List Nat
  usedBrowser : Bool
deriving Repr, DecidableEq

/-- The backoff of `src/index.js` line 151:
`Math.min(1000 * Math.pow(2, attempt), 30000)`. -/
def backoffDelay (attempt : Nat) : Nat :=
  min (1000 * 2 ^ attempt) 30000

/-- `scrapePage` from `src/index.js` lines 128-157, starting at the given
attempt number: try the lightweight transport; on success return the markup;
on failure with `attempt >= 3` fall back to the browser, whose failure is
rethrown unchanged; otherwise wait the exponential backoff and retry with
`attempt + 1`. -/
def scrapePageAux (transport : Nat → Except String String)
    (browser : Except String String) (attempt : Nat) : FetchTrace :=
  match transport attempt with
  | .ok markup => ⟨.ok markup, attempt, [], false⟩
  | .error _ =>
    if h : 3 ≤ attempt then
      ⟨browser, attempt, [], true⟩
    else
      let rest := scrapePageAux transport browser (attempt + 1)
      ⟨rest.result, rest.lastAttempt, backoffDelay attempt :: rest.delays,
        rest.usedBrowser⟩
termination_by 3 - attempt
decreasing_by omega

/-- `scrapePage(url, pageNumber)` is called with the default `attempt = 1`. -/
def scrapePage (transport : Nat → Except String String)
    (browser : Except String String) : FetchTrace :=
  scrapePageAux transport browser 1

/-- The fetch strategy exactly as claim C4 words it, written independently of
the source: at most 3 lightweight attempts; a success at attempt `n` returns
the markup immediately after backoffs `min(1000·2^i, 30000)` for each failed
attempt `i < n`; after the 3rd lightweight failure the browser fallback
decides the result, and its failure is surfaced with the underlying cause. -/
def fetchSpec (transport : Nat → Except String String)
    (browser : Except String String) : FetchTrace :=
  match transport 1 with
  | .ok m => ⟨.ok m, 1, [], false⟩
  | .error _ =>
    match transport 2 with
    | .ok m => ⟨.ok m, 2, [min (1000 * 2 ^ 1) 30000], false⟩
    | .error _ =>
      match transport 3 with
      | .ok m =>
          ⟨.ok m, 3, [min (1000 * 2 ^ 1) 30000, min (1000 * 2 ^ 2) 30000], false⟩
      | .error _ =>
          ⟨browser, 3, [min (1000 * 2 ^ 1) 30000, min (1000 * 2 ^ 2) 30000], true⟩

/-- Claim C4: for every page fetch, the strategy makes at most 3 lightweight
attempts, waits `min(1000·2^n, 30000)` ms after a failed attempt `n < 3`,
returns the markup immediately on a 2xx response, escalates to the browser
fallback after the 3rd lightweight failure, and propagates the browser
fallback's error as the underlying cause: `scrapePage` coincides with the
strategy `fetchSpec` transcribed from the claim. -/
theorem scrapePage_eq_fetchSpec (transport : Nat → Except String String)
    (browser : Except String String) :
    scrapePage transport browser = fetchSpec transport browser := by
  unfold scrapePage fetchSpec
  rw [scrapePageAux]
  cases transport 1 with
  | ok m => rfl
  | error e1 =>
    simp only [show ¬ (3 ≤ 1) by omega, dite_false]
    rw [scrapePageAux]
    cases transport 2 with
    | ok m => rfl
    | error e2 =>
      simp only [show ¬ (3 ≤ 2) by omega, dite_false]
      rw [scrapePageAux]
      cases transport 3 with
      | ok m => rfl
      | error e3 => simp [backoffDelay]

/-! ## CSV persistence layer

The persistent variants serialize with `stringify(records, { header: true,
columns: [...] })` from `csv-stringify/sync` and read back with `parse` from
the same import.  The writer below models csv-stringify's documented
defaults: each cell is cast to a string (booleans by the default boolean cast
`value ? '1' : ''`, `null`/`undefined` to the empty string, numbers by
decimal notation), quoted only when it contains the delimiter, the quote
character or a record delimiter (doubling embedded quotes), cells joined by
`,` and each record terminated by `\n`. -/

/-- csv-stringify's default boolean cast: `'1'` for `true`, `''` for `false`
(the library's `cast.boolean` default) — not the tokens `'true'`/`'false'`. -/
def csvOfBool (b : Bool) : String :=
  if b then "1" else ""

/-- csv-stringify casts `null`/`undefined` cells to the empty string. -/
def csvOfOpt (v : Option String) : String :=
  v.getD ""

/-- A cell needs quoting when it contains the delimiter, a quote or a record
delimiter. -/
def csvNeedsQuoting (s : String) : Bool :=
  s.toList.any fun c => c == ',' || c == '"' || c == '\n' || c == '\r'

/-- Quote-doubling used inside quoted cells. -/
def csvEscapeQuotes (s : String) : String :=
  ⟨s.data.flatMap fun c => if c == '"' then ['"', '"'] else [c]⟩

/-- One serialized cell: quoted with embedded quotes doubled when needed. -/
def csvField (s : String) : String :=
  if csvNeedsQuoting s then "\"" ++ csvEscapeQuotes s ++ "\"" else s

/-- One serialized record: cells joined by the delimiter, newline-terminated. -/
def csvLine (cells : List String) : String :=
  String.intercalate "," (cells.map csvField) ++ "\n"

/-- A whole file: the header line, then one line per record. -/
def csvContentOf (header : List String) (rows : List (List String)) : String :=
  csvLine header ++ String.join (rows.map csvLine)

/-- The column headers of the persistent dataset (part_001 lines 125-136,
part_002 lines 118-129). -/
def persistentCsvHeader : List String :=
  ["Business Name", "Address", "Phone Number", "Image URL", "Verified",
   "Page Number", "Date Scraped"]

/-- One row of the persistent dataset, in the configured column order. -/
def persistentCsvRow (b : Business) : List String :=
  [b.name, b.address, b.phone, csvOfOpt b.imageUrl, csvOfBool b.verified,
   toString b.sourcePage, csvOfOpt b.dateScraped]

/-- The CSV text `scrapePages` of the persistent variants writes to
`output/all_businesses.csv`. -/
def writePersistentCsv (records : List Business) : String :=
  csvContentOf persistentCsvHeader (records.map persistentCsvRow)

/-- `loadPreviousBusinesses` (part_001 lines 344-371, part_002 lines
152-175).  When the file is absent it returns `[]`.  When the file exists it
reads the content and calls `parse(csvContent, { columns: true, cast })` —
but `parse` was destructured at line 7 from `csv-stringify/sync`, a module
that exports only `stringify` (the CSV parser lives in the separate
`csv-parse` package), so `parse` is `undefined`, the call throws
`TypeError: parse is not a function`, and the enclosing `try`/`catch` logs
the error and returns `[]`.  The function therefore returns `[]` for every
input, and the `cast` callback that compares the `verified` column against
the token `'true'` (lines 357-362) is unreachable. -/
def loadPreviousBusinesses (fileContent : Option String) : List Business :=
  match fileContent with
  | none => []
  | some _ => []

/-! ## Record extraction, persistent variant (part_001 `scrapePages`) -/

/-- One item-level failure: the page it happened on and the underlying
message, as logged by the per-item `catch` blocks. -/
structure ItemError where
  page : Nat
  message : String
deriving Repr, DecidableEq

/-- State of one page's `$('.company.g_0').each(...)` walk: accepted
businesses, the mutable dedup key set, recorded item-level errors and the
page's accepted-record counter. -/
structure ExtractState where
  businesses : List Business
  keys : List String
  itemErrors : List ItemError
  pageCount : Nat
deriving Repr, DecidableEq

/-- One iteration of the `each` callback in part_001 `scrapePages` (lines
67-108): ads are skipped; a node whose field reads throw is caught by the
item-level `catch` and recorded; the duplicate key `name|address` is probed
against the key set; past that probe the record literal
`{ ..., category: categoryName, ... }` (line 95) reads `categoryName`, a
`const` declared only inside `scrapeCategoryPages`, so a
`ReferenceError: categoryName is not defined` is thrown and caught by the
same item-level `catch` — the acceptance test at line 100 is unreachable and
no business is ever pushed. -/
def part001ProcessItem (page : Nat) (st : ExtractState) (n : ListingNode) :
    ExtractState :=
  if n.isAd then st
  else
    match n.broken with
    | some m => { st with itemErrors := st.itemErrors ++ [⟨page, m⟩] }
    | none =>
      let name := jsTrim n.nameText
      let address := jsTrim n.addressText
      let key := duplicateKey name address
      if key ∈ st.keys then st
      else
        { st with itemErrors := st.itemErrors ++ [⟨page, "categoryName is not defined"⟩] }

/-- The whole `each` walk of one page in part_001 `scrapePages`. -/
def part001ExtractPage (keys : List String) (nodes : List ListingNode)
    (page : Nat) : ExtractState :=
  nodes.foldl (part001ProcessItem page) ⟨[], keys, [], 0⟩

/-- The item-level error one node of part_001 `scrapePages` contributes, if
any (the key set never grows there, so each node's outcome depends only on
the initial key set). -/
def part001ItemOutcome (keys : List String) (page : Nat) (n : ListingNode) :
    Option ItemError :=
  if n.isAd then none
  else
    match n.broken with
    | some m => some ⟨page, m⟩
    | none =>
      if duplicateKey (jsTrim n.nameText) (jsTrim n.addressText) ∈ keys then none
      else some ⟨page, "categoryName is not defined"⟩

theorem part001_foldl_char (page : Nat) (nodes : List ListingNode)
    (bs : List Business) (ks : List String) (ie : List ItemError) (cnt : Nat) :
    nodes.foldl (part001ProcessItem page) ⟨bs, ks, ie, cnt⟩ =
      ⟨bs, ks, ie ++ nodes.filterMap (part001ItemOutcome ks page), cnt⟩ := by
  induction nodes generalizing ie with
  | nil => simp
  | cons n rest ih =>
    simp only [List.foldl_cons, List.filterMap_cons, part001ProcessItem,
      part001ItemOutcome]
    by_cases had : n.isAd
    · simp [had, ih]
    · simp only [had, if_false]
      cases hb : n.broken with
      | some m => simp [ih, List.append_assoc]
      | none =>
        by_cases hdup : duplicateKey (jsTrim n.nameText) (jsTrim n.addressText) ∈ ks
        · simp [hdup, ih]
        · simp [hdup, ih, List.append_assoc]

/-- Characterization of one page's extraction in part_001 `scrapePages`: no
business is ever accepted, the key set is returned unchanged, and the item
errors are exactly those of the individual nodes, in node order. -/
theorem part001_extract_char (keys : List String) (nodes : List ListingNode)
    (page : Nat) :
    part001ExtractPage keys nodes page =
      ⟨[], keys, nodes.filterMap (part001ItemOutcome keys page), 0⟩ :=
  part001_foldl_char page nodes [] keys [] 0

/-- Claim C8: a failure while processing one listing node is caught and
recorded as an item-level error carrying the page number and the underlying
message, and processing continues with the remaining nodes: extracting the
page with the bad node yields exactly the extraction without it, plus one
recorded item error in the bad node's position. -/
theorem part001_item_failure_isolated (keys : List String) (page : Nat)
    (pre post : List ListingNode) (bad : ListingNode) (m : String)
    (hnotad : bad.isAd = false) (hbroken : bad.broken = some m) :
    part001ExtractPage keys (pre ++ bad :: post) page =
      { part001ExtractPage keys (pre ++ post) page with
        itemErrors :=
          (part001ExtractPage keys pre page).itemErrors ++
            ⟨page, m⟩ :: (part001ExtractPage keys post page).itemErrors } := by
  simp [part001_extract_char, part001ItemOutcome, hnotad, hbroken]

/-- A well-formed listing node (no throw on field reads). -/
def nodeAlpha : ListingNode :=
  ⟨false, none, "Alpha Ltd", "1 First St", some "0801 111 2222", false, "", "",
   false, false⟩

/-- A second well-formed listing node. -/
def nodeBeta : ListingNode :=
  ⟨false, none, "Beta Ventures", "2 Second Ave", none, false, "", "", false,
   false⟩

/-- A node whose field reads throw, as live markup can make cheerio do. -/
def nodeBroken : ListingNode :=
  ⟨false, some "Cannot read properties of undefined", "x", "y", none, false, "",
   "", false, false⟩

theorem part001_item_failure_isolated_witness :
    part001ExtractPage [] ([nodeAlpha] ++ nodeBroken :: [nodeBeta]) 2 =
      { part001ExtractPage [] ([nodeAlpha] ++ [nodeBeta]) 2 with
        itemErrors :=
          (part001ExtractPage [] [nodeAlpha] 2).itemErrors ++
            ⟨2, "Cannot read properties of undefined"⟩ ::
              (part001ExtractPage [] [nodeBeta] 2).itemErrors } :=
  part001_item_failure_isolated [] 2 [nodeAlpha] [nodeBeta] nodeBroken
    "Cannot read properties of undefined" rfl rfl

/-! ## Page-range orchestration, persistent variant (part_001 `scrapePages`) -/

/-- Outcome of fetching one page: the parsed listing nodes of the returned
markup, or the thrown error's message (timeout, non-2xx, network error). -/
inductive PageFetch where
  | ok (nodes : List ListingNode)
  | fail (msg : String)
deriving Repr, DecidableEq

/-- The aggregate statistics object of the persistent variants. -/
structure RunStats where
  totalPagesAttempted : Nat
  successfulPages : Nat
  failedPages : Nat
  newBusinessesScraped : Nat
  totalBusinessesSaved : Nat
  csvFile : String
deriving Repr, DecidableEq

/-- The orchestrator's running state across the page loop.  `attempted`
instruments which pages the loop actually processed. -/
structure RunState where
  businesses : List Business
  keys : List String
  errors : List ScrapeError
  attempted : List Nat
deriving Repr, DecidableEq

/-- One iteration of the page loop in part_001 `scrapePages` (lines 52-118):
a successful fetch runs the extraction against the current key set; a failed
fetch appends one `ScrapeError` with the page, URL and message.  Either way
the loop continues with the next page. -/
def part001Step (fetch : Nat → PageFetch) (base : String) (st : RunState)
    (page : Nat) : RunState :=
  match fetch page with
  | .ok nodes =>
    let ex := part001ExtractPage st.keys nodes page
    { st with businesses := st.businesses ++ ex.businesses, keys := ex.keys,
              attempted := st.attempted ++ [page] }
  | .fail m =>
    { st with errors := st.errors ++ [⟨page, pageUrl base page, m⟩],
              attempted := st.attempted ++ [page] }

/-- The result object of the persistent `scrapePages` (part_001 lines
143-156), extended with the CSV text written to `all_businesses.csv` and the
instrumented list of attempted pages. -/
structure PersistentRunResult where
  businesses : List Business
  totalBusinesses : Nat
  errors : List ScrapeError
  stats : RunStats
  writtenCsv : String
  attempted : List Nat
deriving Repr, DecidableEq

/-- `scrapePages` from part_001 (lines 39-156): load the previous dataset
(always `[]`, see `loadPreviousBusinesses`), build the dedup key set from the
record **names** (line 49: `new Set(previousBusinesses.map(b => b.name))` —
even though the extraction probes it with `name|address` keys), loop over the
page range, combine previous and new records, rewrite the persistent CSV in
full and return the result.  The body never throws, so the `Except` result —
the rejected-promise channel surfaced by the `/scrape` handler as a 500 — is
always `.ok`. -/
def part001ScrapePages (fileContent : Option String) (baseUrl : String)
    (startPage endPage : Nat) (fetch : Nat → PageFetch) :
    Except String PersistentRunResult :=
  let base := normalizeBaseUrl baseUrl
  let previous := loadPreviousBusinesses fileContent
  let keys0 := previous.map (·.name)
  let final := (pageRange startPage endPage).foldl (part001Step fetch base)
    ⟨[], keys0, [], []⟩
  let combined := previous ++ final.businesses
  .ok { businesses := final.businesses
        totalBusinesses := combined.length
        errors := final.errors
        stats := ⟨endPage + 1 - startPage,
                  (endPage + 1 - startPage) - final.errors.length,
                  final.errors.length, final.businesses.length, combined.length,
                  "all_businesses.csv"⟩
        writtenCsv := writePersistentCsv combined
        attempted := final.attempted }

/-- A record as persisted by an earlier run. -/
def c1Prev : Business :=
  ⟨"Acme Ltd", "12 Main St", "0801 234 5678", some "", false, none, 1,
   some "2024-01-01T00:00:00.000Z"⟩

/-- The same listing as served again by the directory page. -/
def c1Node : ListingNode :=
  ⟨false, none, "Acme Ltd", "12 Main St", some "0801 234 5678", false, "", "",
   false, false⟩

/-- Claim C1 fails on the code: re-running part_001 `scrapePages` over a
persisted dataset holding one record, against identical page content, indeed
adds zero new records — but it does not leave the persisted dataset
unchanged: the prior record is lost and the file is rewritten header-only,
because loading always yields `[]` (the `parse` import bug), every extracted
item is dropped by the `categoryName` ReferenceError, and the dedup key set
is built from names yet probed with `name|address` keys. -/
theorem part001_second_run_erases_dataset :
    part001ScrapePages (some (writePersistentCsv [c1Prev]))
        "https://www.businesslist.com.ng/location/lagos" 1 1
        (fun _ => .ok [c1Node])
      = .ok ⟨[], 0, [], ⟨1, 1, 0, 0, 0, "all_businesses.csv"⟩,
             writePersistentCsv [], [1]⟩
    ∧ writePersistentCsv [] ≠ writePersistentCsv [c1Prev] := by
  refine ⟨by rfl, by decide⟩

/-- Claim C6's counterexample: a run of the persistent `scrapePages` that
produced zero new accepted records returns normally with its statistics
(`newBusinessesScraped = 0`), instead of terminating abnormally as the claim
requires — part_001 lines 143-156 return unconditionally. -/
theorem part001_zero_new_returns_normally :
    part001ScrapePages none "https://example.com/dir" 1 1 (fun _ => .ok [])
      = .ok ⟨[], 0, [], ⟨1, 1, 0, 0, 0, "all_businesses.csv"⟩,
             writePersistentCsv [], [1]⟩ := by
  rfl

/-- The dataset record of claim C3's failing input: `verified = true`. -/
def c3Record : Business :=
  ⟨"A", "B", "", some "", true, none, 3, some "2024-01-02T03:04:05.678Z"⟩

/-- Claim C3 fails on the code: the `verified` column of a written dataset
holds csv-stringify's default boolean cast `'1'` (not the literal token
`'true'`), and reading the file back yields `[]` rather than the original
record, because `parse` is imported from `csv-stringify/sync`, which does not
export it. -/
theorem persistent_roundtrip_fails :
    csvOfBool true = "1" ∧ "1" ≠ "true" ∧ csvOfBool false = "" ∧
    loadPreviousBusinesses (some (writePersistentCsv [c3Record])) = [] ∧
    ([] : List Business) ≠ [c3Record] := by
  refine ⟨rfl, by decide, rfl, rfl, by decide⟩

/-! ## Category-scoped scrape (part_001 `scrapeCategoryPages`)

`categoryName` abstracts the regex capture of lines 167-168, `now` the
`new Date().toISOString()` stamp, and `mkUrl` the pagination-URL
reconstruction of lines 173-200 (including its `city:`-qualifier branch),
none of which any claim constrains. -/

/-- Image-URL extraction of `scrapeCategoryPages` (lines 236-254): only
`with_img` listings are considered; the `data-bg` attribute (or `''`) is
taken as the relative path; a non-empty path is kept as is when it already
starts with `http`, and otherwise prefixed with the site origin (with `/img/`
inserted for bare relative paths). -/
def catImageUrl (n : ListingNode) : String :=
  if n.hasWithImg then
    if n.logoPresent then
      let relativePath := n.dataBg
      if relativePath = "" then ""
      else if jsStartsWith relativePath "http" then relativePath
      else if jsStartsWith relativePath "/" then
        "https://www.businesslist.com.ng" ++ relativePath
      else "https://www.businesslist.com.ng/img/" ++ relativePath
    else ""
  else ""

/-- One iteration of the `each` callback in `scrapeCategoryPages` (lines
216-281): ads skipped; a throwing node caught and recorded by the item-level
`catch`; the `name|address` duplicate key probed against the key set (here
built consistently from `name|address`, line 188); then the record is
accepted only when `name` is non-empty and at least one of address/phone is
non-empty (line 273) — in that case the key set gains the new key; otherwise
the candidate is dropped silently, with no error of any kind. -/
def catProcessItem (categoryName now : String) (page : Nat) (st : ExtractState)
    (n : ListingNode) : ExtractState :=
  if n.isAd then st
  else
    match n.broken with
    | some m => { st with itemErrors := st.itemErrors ++ [⟨page, m⟩] }
    | none =>
      let name := jsTrim n.nameText
      let address := jsTrim n.addressText
      let key := duplicateKey name address
      if key ∈ st.keys then st
      else
        let phone := extractPhone n
        let business : Business :=
          ⟨name, address, phone, some (catImageUrl n), n.verifiedBadge,
           some categoryName, page, some now⟩
        if name ≠ "" ∧ (address ≠ "" ∨ phone ≠ "") then
          { st with businesses := st.businesses ++ [business],
                    keys := st.keys ++ [key], pageCount := st.pageCount + 1 }
        else st

/-- The whole `each` walk of one page in `scrapeCategoryPages`. -/
def catExtractPage (categoryName now : String) (keys : List String)
    (nodes : List ListingNode) (page : Nat) : ExtractState :=
  nodes.foldl (catProcessItem categoryName now page) ⟨[], keys, [], 0⟩

/-- The item-level error one node contributes in the category extraction:
exactly the throwing non-ad nodes are recorded, nothing else — in particular
a candidate dropped by the acceptance check records nothing. -/
def catItemErrorOutcome (page : Nat) (n : ListingNode) : Option ItemError :=
  if n.isAd then none
  else
    match n.broken with
    | some m => some ⟨page, m⟩
    | none => none

theorem catFold_errors (categoryName now : String) (page : Nat)
    (nodes : List ListingNode) (s : ExtractState) :
    (nodes.foldl (catProcessItem categoryName now page) s).itemErrors =
      s.itemErrors ++ nodes.filterMap (catItemErrorOutcome page) := by
  induction nodes generalizing s with
  | nil => simp
  | cons n rest ih =>
    simp only [List.foldl_cons, List.filterMap_cons, catProcessItem,
      catItemErrorOutcome]
    by_cases had : n.isAd
    · simp [had, ih]
    · simp only [had, if_false]
      cases hb : n.broken with
      | some m => simp [ih, List.append_assoc]
      | none =>
        by_cases hdup :
            duplicateKey (jsTrim n.nameText) (jsTrim n.addressText) ∈ s.keys
        · simp [hdup, ih]
        · by_cases hvalid : jsTrim n.nameText ≠ "" ∧
              (jsTrim n.addressText ≠ "" ∨ extractPhone n ≠ "")
          · simp [hdup, hvalid, ih]
          · simp [hdup, hvalid, ih]

theorem catStep_businesses (categoryName now : String) (page : Nat)
    (s : ExtractState) (n : ListingNode) :
    (catProcessItem categoryName now page s n).businesses = s.businesses ∨
    ∃ bus, (catProcessItem categoryName now page s n).businesses =
        s.businesses ++ [bus] ∧
      bus.name ≠ "" ∧ (bus.address ≠ "" ∨ bus.phone ≠ "") := by
  unfold catProcessItem
  by_cases had : n.isAd
  · simp [had]
  · simp only [had, if_false]
    cases hbroken : n.broken with
    | some m => simp
    | none =>
      by_cases hdup :
          duplicateKey (jsTrim n.nameText) (jsTrim n.addressText) ∈ s.keys
      · simp [hdup]
      · by_cases hvalid : jsTrim n.nameText ≠ "" ∧
            (jsTrim n.addressText ≠ "" ∨ extractPhone n ≠ "")
        · refine Or.inr ⟨⟨jsTrim n.nameText, jsTrim n.addressText, extractPhone n,
              some (catImageUrl n), n.verifiedBadge, some categoryName, page,
              some now⟩, ?_, hvalid.1, hvalid.2⟩
          simp [hdup, hvalid]
        · simp [hdup, hvalid]

theorem catFold_valid (categoryName now : String) (page : Nat)
    (nodes : List ListingNode) (s : ExtractState)
    (hs : ∀ b ∈ s.businesses, b.name ≠ "" ∧ (b.address ≠ "" ∨ b.phone ≠ "")) :
    ∀ b ∈ (nodes.foldl (catProcessItem categoryName now page) s).businesses,
      b.name ≠ "" ∧ (b.address ≠ "" ∨ b.phone ≠ "") := by
  induction nodes generalizing s with
  | nil => simpa using hs
  | cons n rest ih =>
    simp only [List.foldl_cons]
    refine ih _ ?_
    intro b hb
    rcases catStep_businesses categoryName now page s n with h | ⟨bus, h, h1, h2⟩
    · rw [h] at hb
      exact hs b hb
    · rw [h] at hb
      rcases List.mem_append.1 hb with hb | hb
      · exact hs b hb
      · rcases List.mem_singleton.1 hb with rfl
        exact ⟨h1, h2⟩

/-- A genuinely new listing whose name itself contains the `|` separator. -/
def c10Node : ListingNode :=
  ⟨false, none, "Acme|Lagos", "Branch", some "0709 000 1111", false, "", "",
   false, false⟩

/-- Claim C10: the dedup key is the plain concatenation `name ++ "|" ++
address`; it is not injective — the distinct pairs `("Acme|Lagos", "Branch")`
and `("Acme", "Lagos|Branch")` share one key — so a genuinely new, otherwise
acceptable record is skipped as a duplicate of a different record when the
other pair's key is already in the key set. -/
theorem duplicateKey_not_injective :
    duplicateKey "Acme|Lagos" "Branch" = duplicateKey "Acme" "Lagos|Branch" ∧
    (("Acme|Lagos", "Branch") : String × String) ≠ ("Acme", "Lagos|Branch") ∧
    (catExtractPage "services" "2024-05-05T00:00:00.000Z"
        [duplicateKey "Acme" "Lagos|Branch"] [c10Node] 4).businesses = [] ∧
    (catExtractPage "services" "2024-05-05T00:00:00.000Z"
        [] [c10Node] 4).businesses ≠ [] := by
  refine ⟨rfl, by decide, by rfl, by decide⟩

/-- State of the category page loop; `stopped` records whether the
consecutive-404 `break` fired. -/
structure CatLoopState where
  businesses : List Business
  keys : List String
  errors : List ScrapeError
  attempted : List Nat
  stopped : Bool
deriving Repr, DecidableEq

/-- The break condition of `scrapeCategoryPages` line 292, evaluated right
after an error is appended:
`errors.length > 5 && errors.slice(-5).every(e => e.error.includes('404'))` —
strictly more than 5 errors in total, and the last 5 recorded errors (of any
pages, not necessarily consecutive ones) each contain the substring `404`. -/
def catStopCond (errors : List ScrapeError) : Bool :=
  decide (5 < errors.length) &&
    (errors.drop (errors.length - 5)).all fun e => strIncludes e.error "404"

/-- The page loop of `scrapeCategoryPages` (lines 191-297): successful pages
run the extraction; a failed page appends one `ScrapeError` and then breaks
out of the loop when `catStopCond` holds. -/
def catLoop (categoryName now : String) (mkUrl : Nat → String)
    (fetch : Nat → PageFetch) : List Nat → CatLoopState → CatLoopState
  | [], st => st
  | page :: rest, st =>
    match fetch page with
    | .ok nodes =>
      let ex := catExtractPage categoryName now st.keys nodes page
      catLoop categoryName now mkUrl fetch rest
        { st with businesses := st.businesses ++ ex.businesses, keys := ex.keys,
                  attempted := st.attempted ++ [page] }
    | .fail m =>
      let st1 := { st with errors := st.errors ++ [⟨page, mkUrl page, m⟩],
                           attempted := st.attempted ++ [page] }
      if catStopCond st1.errors then { st1 with stopped := true }
      else catLoop categoryName now mkUrl fetch rest st1

/-- The column headers of a category dataset (lines 304-316). -/
def categoryCsvHeader : List String :=
  ["Business Name", "Address", "Phone Number", "Image URL", "Verified",
   "Category", "Page Number", "Date Scraped"]

/-- One row of a category dataset. -/
def categoryCsvRow (b : Business) : List String :=
  [b.name, b.address, b.phone, csvOfOpt b.imageUrl, csvOfBool b.verified,
   csvOfOpt b.category, toString b.sourcePage, csvOfOpt b.dateScraped]

/-- The CSV text written to the category-named output file. -/
def writeCategoryCsv (records : List Business) : String :=
  csvContentOf categoryCsvHeader (records.map categoryCsvRow)

/-- The result of `scrapeCategoryPages` (lines 323-336), extended with the
written CSV text, the attempted pages and the early-stop flag. -/
structure CategoryRunResult where
  businesses : List Business
  totalBusinesses : Nat
  errors : List ScrapeError
  stats : RunStats
  writtenCsv : String
  attempted : List Nat
  stopped : Bool
deriving Repr, DecidableEq

/-- `scrapeCategoryPages` from part_001 (lines 158-342): load the previous
category dataset (always `[]`, see `loadPreviousBusinesses`), build the key
set from `name|address` (line 188), run the page loop with the
consecutive-404 break, combine and rewrite the category CSV, and return the
result (the source nests `category` inside `stats`; here `stats.csvFile`
carries the category-derived file name). -/
def scrapeCategoryPages (categoryName now : String) (mkUrl : Nat → String)
    (fileContent : Option String) (startPage endPage : Nat)
    (fetch : Nat → PageFetch) : CategoryRunResult :=
  let previous := loadPreviousBusinesses fileContent
  let keys0 := previous.map fun b => duplicateKey b.name b.address
  let final := catLoop categoryName now mkUrl fetch (pageRange startPage endPage)
    ⟨[], keys0, [], [], false⟩
  let combined := previous ++ final.businesses
  { businesses := final.businesses
    totalBusinesses := combined.length
    errors := final.errors
    stats := ⟨endPage + 1 - startPage,
              (endPage + 1 - startPage) - final.errors.length,
              final.errors.length, final.businesses.length, combined.length,
              categoryName ++ ".csv"⟩
    writtenCsv := writeCategoryCsv combined
    attempted := final.attempted
    stopped := final.stopped }

theorem catLoop_char (categoryName now : String) (mkUrl : Nat → String)
    (fetch : Nat → PageFetch) (pages : List Nat) (st : CatLoopState)
    (hst : st.stopped = false) :
    ((catLoop categoryName now mkUrl fetch pages st).stopped = true →
      catStopCond (catLoop categoryName now mkUrl fetch pages st).errors = true) ∧
    ((catLoop categoryName now mkUrl fetch pages st).stopped = false →
      (catLoop categoryName now mkUrl fetch pages st).attempted =
        st.attempted ++ pages) := by
  induction pages generalizing st with
  | nil =>
    constructor
    · intro h
      rw [catLoop] at h
      rw [hst] at h
      exact absurd h (by simp)
    · intro _
      simp [catLoop]
  | cons page rest ih =>
    rw [catLoop]
    cases fetch page with
    | ok nodes =>
      have := ih { st with
        businesses := st.businesses ++
          (catExtractPage categoryName now st.keys nodes page).businesses,
        keys := (catExtractPage categoryName now st.keys nodes page).keys,
        attempted := st.attempted ++ [page] } hst
      simpa [List.append_assoc] using this
    | fail m =>
      by_cases hstop : catStopCond
          (st.errors ++ [⟨page, mkUrl page, m⟩]) = true
      · constructor
        · intro _
          simp [hstop]
        · intro h
          simp [hstop] at h
      · have hstopf : catStopCond (st.errors ++ [⟨page, mkUrl page, m⟩]) = false :=
          by simpa using hstop
        have := ih { st with
          errors := st.errors ++ [⟨page, mkUrl page, m⟩],
          attempted := st.attempted ++ [page] } hst
        simpa [hstopf, List.append_assoc] using this

/-- A category fetch in which every page fails with an HTTP 404 message. -/
def fetch404 : Nat → PageFetch :=
  fun _ => .fail "Request failed with status code 404"

/-- A demo URL constructor for the category runs. -/
def mkUrlDemo : Nat → String :=
  fun p => pageUrl "https://www.businesslist.com.ng/category/others/" p

/-- Claim C9, amended: the category loop stops early only when, right after a
page failure, the total error count exceeds 5 and the last 5 recorded errors
all contain `404` (the code never checks that they came from consecutive
pages); when the break does not fire, every page of the range is attempted.
The run in which every page of `1..10` fails with a 404 stops right after
page 6 — the earliest point where more than 5 errors exist. -/
theorem cat_early_stop_characterized (categoryName now : String)
    (mkUrl : Nat → String) (fileContent : Option String)
    (startPage endPage : Nat) (fetch : Nat → PageFetch) :
    ((scrapeCategoryPages categoryName now mkUrl fileContent startPage endPage
        fetch).stopped = true →
      catStopCond (scrapeCategoryPages categoryName now mkUrl fileContent
        startPage endPage fetch).errors = true) ∧
    ((scrapeCategoryPages categoryName now mkUrl fileContent startPage endPage
        fetch).stopped = false →
      (scrapeCategoryPages categoryName now mkUrl fileContent startPage endPage
        fetch).attempted = pageRange startPage endPage) ∧
    (scrapeCategoryPages "others" "2024-01-01T00:00:00.000Z" mkUrlDemo none 1 10
        fetch404).stopped = true ∧
    (scrapeCategoryPages "others" "2024-01-01T00:00:00.000Z" mkUrlDemo none 1 10
        fetch404).attempted = [1, 2, 3, 4, 5, 6] := by
  have h := catLoop_char categoryName now mkUrl fetch
    (pageRange startPage endPage) ⟨[], (loadPreviousBusinesses fileContent).map
      (fun b => duplicateKey b.name b.address), [], [], false⟩ rfl
  refine ⟨?_, ?_, by rfl, by rfl⟩
  · intro hs
    exact h.1 hs
  · intro hs
    simpa using h.2 hs

/-- A fetch in which exactly pages 1-5 fail with a 404 and later pages
succeed. -/
def fetch404five : Nat → PageFetch :=
  fun p =>
    if p ≤ 5 then .fail "Request failed with status code 404"
    else .ok [nodeAlpha]

/-- Claim C9's counterexample: after pages 1-5 — a trailing window of 5
consecutive pages — all failed with the same 404 error, the claim says the
loop stops early; the code instead proceeds to page 6 and exhausts the whole
range, because the break also requires strictly more than 5 accumulated
errors. -/
theorem cat_five_trailing_404_do_not_stop :
    (scrapeCategoryPages "others" "2024-01-01T00:00:00.000Z" mkUrlDemo none 1 6
        fetch404five).errors.length = 5 ∧
    ((scrapeCategoryPages "others" "2024-01-01T00:00:00.000Z" mkUrlDemo none 1 6
        fetch404five).errors.all fun e => strIncludes e.error "404") = true ∧
    (scrapeCategoryPages "others" "2024-01-01T00:00:00.000Z" mkUrlDemo none 1 6
        fetch404five).stopped = false ∧
    (scrapeCategoryPages "others" "2024-01-01T00:00:00.000Z" mkUrlDemo none 1 6
        fetch404five).attempted = [1, 2, 3, 4, 5, 6] := by
  refine ⟨by rfl, by rfl, by rfl, by rfl⟩

/-! ## Stateless orchestration (`src/index.js` `scrapePages`)

This variant extracts every non-ad listing without any acceptance check or
deduplication, and its `each` walk has no item-level `try`/`catch`: a
throwing node aborts the page's walk (records pushed before it survive) and
is caught by the page-level handler as one `ScrapeError`.  `resolveUrl`
abstracts `new URL(imageUrl, 'https://www.businesslist.com.ng').toString()`,
a WHATWG-URL primitive no claim constrains. -/

/-- The raw image value of `src/index.js` lines 184-189: the `data-bg`
attribute when truthy, otherwise the CSS `background-image` fallback; empty
when no logo element matches. -/
def indexImageRaw (n : ListingNode) : String :=
  if n.logoPresent then
    if n.dataBg ≠ "" then n.dataBg else n.cssBgUrl
  else ""

/-- The record `src/index.js` pushes for one listing (lines 175-201): no
acceptance check, `imageUrl` resolved when non-empty and `null` otherwise,
no category and no scrape date. -/
def indexBusiness (resolveUrl : String → String) (page : Nat)
    (n : ListingNode) : Business :=
  let imageRaw := indexImageRaw n
  ⟨jsTrim n.nameText, jsTrim n.addressText, extractPhone n,
   if imageRaw ≠ "" then some (resolveUrl imageRaw) else none,
   n.verifiedBadge, none, page, none⟩

/-- The `each` walk of `src/index.js` (lines 172-202): ads are skipped, and a
throwing node ends the walk with its message — the businesses pushed before
it remain. -/
def indexExtractNodes (resolveUrl : String → String) (page : Nat) :
    List ListingNode → List Business × Option String
  | [] => ([], none)
  | n :: rest =>
    if n.isAd then indexExtractNodes resolveUrl page rest
    else
      match n.broken with
      | some m => ([], some m)
      | none =>
        let tail := indexExtractNodes resolveUrl page rest
        (indexBusiness resolveUrl page n :: tail.1, tail.2)

/-- One iteration of the page loop of `src/index.js` (lines 164-215): a
failed fetch, or a throw during the page's walk, appends one `ScrapeError`;
either way the loop continues. -/
def indexPageStep (resolveUrl : String → String) (fetch : Nat → PageFetch)
    (base : String) (st : RunState) (page : Nat) : RunState :=
  match fetch page with
  | .fail m =>
    { st with errors := st.errors ++ [⟨page, pageUrl base page, m⟩],
              attempted := st.attempted ++ [page] }
  | .ok nodes =>
    match indexExtractNodes resolveUrl page nodes with
    | (bs, some m) =>
      { st with businesses := st.businesses ++ bs,
                errors := st.errors ++ [⟨page, pageUrl base page, m⟩],
                attempted := st.attempted ++ [page] }
    | (bs, none) =>
      { st with businesses := st.businesses ++ bs,
                attempted := st.attempted ++ [page] }

/-- The statistics object of `src/index.js` (lines 241-247; the timestamped
`csvFile` name is derived from the wall clock and constrained by no claim, so
it is left out of the model). -/
structure IndexStats where
  totalPagesAttempted : Nat
  successfulPages : Nat
  failedPages : Nat
  businessesScraped : Nat
deriving Repr, DecidableEq

/-- The result object of `src/index.js` `scrapePages`. -/
structure IndexRunResult where
  businesses : List Business
  errors : List ScrapeError
  stats : IndexStats
  attempted : List Nat
deriving Repr, DecidableEq

/-- `scrapePages` from `src/index.js` (lines 159-252): loop the page range,
then either return the result or — iff **zero** businesses were collected
over the whole range — throw
`"No businesses were scraped. All attempts failed."`, the rejected promise
the `/scrape` handler surfaces as a 500. -/
def indexScrapePages (resolveUrl : String → String) (baseUrl : String)
    (startPage endPage : Nat) (fetch : Nat → PageFetch) :
    Except String IndexRunResult :=
  let base := normalizeBaseUrl baseUrl
  let final := (pageRange startPage endPage).foldl
    (indexPageStep resolveUrl fetch base) ⟨[], [], [], []⟩
  if final.businesses.isEmpty then
    .error "No businesses were scraped. All attempts failed."
  else
    .ok ⟨final.businesses, final.errors,
         ⟨endPage + 1 - startPage,
          (endPage + 1 - startPage) - final.errors.length,
          final.errors.length, final.businesses.length⟩,
         final.attempted⟩

/-- The records page `p` contributes to an `src/index.js` run. -/
def indexPageRecords (resolveUrl : String → String) (fetch : Nat → PageFetch)
    (page : Nat) : List Business :=
  match fetch page with
  | .fail _ => []
  | .ok nodes => (indexExtractNodes resolveUrl page nodes).1

/-- The `ScrapeError` page `p` contributes to an `src/index.js` run, if
any. -/
def indexPageError (resolveUrl : String → String) (fetch : Nat → PageFetch)
    (base : String) (page : Nat) : Option ScrapeError :=
  match fetch page with
  | .fail m => some ⟨page, pageUrl base page, m⟩
  | .ok nodes =>
    match (indexExtractNodes resolveUrl page nodes).2 with
    | some m => some ⟨page, pageUrl base page, m⟩
    | none => none

theorem index_foldl_char (resolveUrl : String → String)
    (fetch : Nat → PageFetch) (base : String) (pages : List Nat)
    (st : RunState) :
    pages.foldl (indexPageStep resolveUrl fetch base) st =
      ⟨st.businesses ++
         (pages.map (indexPageRecords resolveUrl fetch)).flatten,
       st.keys,
       st.errors ++ pages.filterMap (indexPageError resolveUrl fetch base),
       st.attempted ++ pages⟩ := by
  induction pages generalizing st with
  | nil => simp
  | cons page rest ih =>
    simp only [List.foldl_cons, List.map_cons, List.flatten_cons,
      List.filterMap_cons, indexPageStep, indexPageRecords, indexPageError]
    cases hf : fetch page with
    | fail m => simp [ih, List.append_assoc]
    | ok nodes =>
      cases hx : indexExtractNodes resolveUrl page nodes with
      | mk bs thrown =>
        cases thrown with
        | some m => simp [ih, hx, List.append_assoc]
        | none => simp [ih, hx, List.append_assoc]

/-- Helper for claim C6: `runFailed` is true exactly on the thrown (rejected
promise) outcome. -/
def runFailed {α : Type} : Except String α → Bool
  | .error _ => true
  | .ok _ => false

/-- Claim C6, amended to `src/index.js` (which has no acceptance filter, so
its "accepted" records are all extracted ones): the run terminates abnormally
iff every page of the range contributed zero records, and otherwise it
returns normally with statistics consistent with the collected records and
errors. -/
theorem index_run_fails_iff_no_records (resolveUrl : String → String)
    (baseUrl : String) (startPage endPage : Nat) (fetch : Nat → PageFetch) :
    (runFailed (indexScrapePages resolveUrl baseUrl startPage endPage fetch) =
        true ↔
      ∀ p ∈ pageRange startPage endPage,
        indexPageRecords resolveUrl fetch p = []) ∧
    (∀ r, indexScrapePages resolveUrl baseUrl startPage endPage fetch = .ok r →
      r.stats.businessesScraped = r.businesses.length ∧
      r.stats.failedPages = r.errors.length ∧
      r.attempted = pageRange startPage endPage) := by
  have hchar := index_foldl_char resolveUrl fetch (normalizeBaseUrl baseUrl)
    (pageRange startPage endPage) ⟨[], [], [], []⟩
  have hkey : runFailed (indexScrapePages resolveUrl baseUrl startPage endPage
      fetch) = ((pageRange startPage endPage).map
        (indexPageRecords resolveUrl fetch)).flatten.isEmpty := by
    rw [indexScrapePages, hchar]
    simp only [List.nil_append]
    by_cases h : ((pageRange startPage endPage).map
        (indexPageRecords resolveUrl fetch)).flatten.isEmpty = true
    · simp [h, runFailed]
    · simp [h, runFailed]
  constructor
  · rw [hkey, List.isEmpty_iff, List.flatten_eq_nil_iff]
    constructor
    · intro h p hp
      exact h _ (List.mem_map_of_mem _ hp)
    · intro h l hl
      rcases List.mem_map.1 hl with ⟨p, hp, rfl⟩
      exact h p hp
  · intro r hr
    rw [indexScrapePages, hchar] at hr
    simp only [List.nil_append] at hr
    by_cases h : ((pageRange startPage endPage).map
        (indexPageRecords resolveUrl fetch)).flatten.isEmpty = true
    · rw [if_pos h] at hr
      cases hr
    · rw [if_neg h] at hr
      injection hr with hr
      subst hr
      exact ⟨rfl, rfl, rfl⟩

/-- A non-ad listing node with every extractable field empty. -/
def emptyFieldsNode : ListingNode :=
  ⟨false, none, "", "", none, false, "", "", false, false⟩

/-- Claim C2's counterexample: `src/index.js` applies no acceptance check —
a run over one page whose only listing has an empty name, address and phone
returns that record in its result set, violating the invariant the claim
states for every run. -/
theorem index_includes_invalid_record :
    indexScrapePages id "https://www.businesslist.com.ng/location/lagos/" 1 1
        (fun _ => .ok [emptyFieldsNode])
      = .ok ⟨[⟨"", "", "", none, false, none, 1, none⟩], [], ⟨1, 1, 0, 1⟩, [1]⟩
    ∧ ¬ ((⟨"", "", "", none, false, none, 1, none⟩ : Business).name ≠ "" ∧
        ((⟨"", "", "", none, false, none, 1, none⟩ : Business).address ≠ "" ∨
         (⟨"", "", "", none, false, none, 1, none⟩ : Business).phone ≠ "")) := by
  refine ⟨by rfl, by decide⟩

/-! ## Persistent orchestration, name-keyed variant (part_002 `scrapePages`)

This variant deduplicates on the trimmed name alone, both when building the
key set (line 40) and when probing it (line 63), applies the acceptance
check (line 97), wraps each item in `try`/`catch` (lines 57-103), never
breaks out of the page loop, and always returns its result object (lines
136-148). -/

/-- One iteration of the `each` callback in part_002 `scrapePages` (lines
56-104). -/
def part002ProcessItem (resolveUrl : String → String) (now : String)
    (page : Nat) (st : ExtractState) (n : ListingNode) : ExtractState :=
  if n.isAd then st
  else
    match n.broken with
    | some m => { st with itemErrors := st.itemErrors ++ [⟨page, m⟩] }
    | none =>
      let name := jsTrim n.nameText
      if name ∈ st.keys then st
      else
        let address := jsTrim n.addressText
        let phone := extractPhone n
        let imageRaw := indexImageRaw n
        let business : Business :=
          ⟨name, address, phone,
           if imageRaw ≠ "" then some (resolveUrl imageRaw) else none,
           n.verifiedBadge, none, page, some now⟩
        if name ≠ "" ∧ (address ≠ "" ∨ phone ≠ "") then
          { st with businesses := st.businesses ++ [business],
                    keys := st.keys ++ [name], pageCount := st.pageCount + 1 }
        else st

/-- The whole `each` walk of one page in part_002 `scrapePages`. -/
def part002ExtractPage (resolveUrl : String → String) (now : String)
    (keys : List String) (nodes : List ListingNode) (page : Nat) :
    ExtractState :=
  nodes.foldl (part002ProcessItem resolveUrl now page) ⟨[], keys, [], 0⟩

theorem part002Step_businesses (resolveUrl : String → String) (now : String)
    (page : Nat) (s : ExtractState) (n : ListingNode) :
    (part002ProcessItem resolveUrl now page s n).businesses = s.businesses ∨
    ∃ bus, (part002ProcessItem resolveUrl now page s n).businesses =
        s.businesses ++ [bus] ∧
      bus.name ≠ "" ∧ (bus.address ≠ "" ∨ bus.phone ≠ "") := by
  unfold part002ProcessItem
  by_cases had : n.isAd
  · simp [had]
  · simp only [had, if_false]
    cases hbroken : n.broken with
    | some m => simp
    | none =>
      by_cases hdup : jsTrim n.nameText ∈ s.keys
      · simp [hdup]
      · by_cases hvalid : jsTrim n.nameText ≠ "" ∧
            (jsTrim n.addressText ≠ "" ∨ extractPhone n ≠ "")
        · refine Or.inr ⟨⟨jsTrim n.nameText, jsTrim n.addressText,
              extractPhone n,
              if indexImageRaw n ≠ "" then some (resolveUrl (indexImageRaw n))
              else none,
              n.verifiedBadge, none, page, some now⟩, ?_, hvalid.1, hvalid.2⟩
          simp [hdup, hvalid]
        · simp [hdup, hvalid]

theorem part002Fold_valid (resolveUrl : String → String) (now : String)
    (page : Nat) (nodes : List ListingNode) (s : ExtractState)
    (hs : ∀ b ∈ s.businesses, b.name ≠ "" ∧ (b.address ≠ "" ∨ b.phone ≠ "")) :
    ∀ b ∈ (nodes.foldl (part002ProcessItem resolveUrl now page) s).businesses,
      b.name ≠ "" ∧ (b.address ≠ "" ∨ b.phone ≠ "") := by
  induction nodes generalizing s with
  | nil => simpa using hs
  | cons n rest ih =>
    simp only [List.foldl_cons]
    refine ih _ ?_
    intro b hb
    rcases part002Step_businesses resolveUrl now page s n with h | ⟨bus, h, h1, h2⟩
    · rw [h] at hb
      exact hs b hb
    · rw [h] at hb
      rcases List.mem_append.1 hb with hb | hb
      · exact hs b hb
      · rcases List.mem_singleton.1 hb with rfl
        exact ⟨h1, h2⟩

theorem part002Fold_errors (resolveUrl : String → String) (now : String)
    (page : Nat) (nodes : List ListingNode) (s : ExtractState) :
    (nodes.foldl (part002ProcessItem resolveUrl now page) s).itemErrors =
      s.itemErrors ++ nodes.filterMap (catItemErrorOutcome page) := by
  induction nodes generalizing s with
  | nil => simp
  | cons n rest ih =>
    simp only [List.foldl_cons, List.filterMap_cons, part002ProcessItem,
      catItemErrorOutcome]
    by_cases had : n.isAd
    · simp [had, ih]
    · simp only [had, if_false]
      cases hb : n.broken with
      | some m => simp [ih, List.append_assoc]
      | none =>
        by_cases hdup : jsTrim n.nameText ∈ s.keys
        · simp [hdup, ih]
        · by_cases hvalid : jsTrim n.nameText ≠ "" ∧
              (jsTrim n.addressText ≠ "" ∨ extractPhone n ≠ "")
          · simp [hdup, hvalid, ih]
          · simp [hdup, hvalid, ih]

/-- Claim C2, amended to the variants that implement the acceptance check
(the identical check in part_001 `scrapePages` line 100 is unreachable — see
`part001ProcessItem`): in both part_001's `scrapeCategoryPages` extraction
and part_002's `scrapePages` extraction, every accepted record has a
non-empty name and at least one of address/phone non-empty, and the only
item-level errors are those of throwing nodes — a candidate dropped by the
acceptance check is silent, and page-level errors arise only from page
fetches, never from dropped candidates. -/
theorem accepted_records_valid (resolveUrl : String → String)
    (categoryName now : String) (keys : List String)
    (nodes : List ListingNode) (page : Nat) :
    (∀ b ∈ (catExtractPage categoryName now keys nodes page).businesses,
        b.name ≠ "" ∧ (b.address ≠ "" ∨ b.phone ≠ "")) ∧
    (catExtractPage categoryName now keys nodes page).itemErrors =
      nodes.filterMap (catItemErrorOutcome page) ∧
    (∀ b ∈ (part002ExtractPage resolveUrl now keys nodes page).businesses,
        b.name ≠ "" ∧ (b.address ≠ "" ∨ b.phone ≠ "")) ∧
    (part002ExtractPage resolveUrl now keys nodes page).itemErrors =
      nodes.filterMap (catItemErrorOutcome page) := by
  refine ⟨?_, ?_, ?_, ?_⟩
  · exact catFold_valid categoryName now page nodes ⟨[], keys, [], 0⟩
      (by intro b hb; simp at hb)
  · simpa using catFold_errors categoryName now page nodes ⟨[], keys, [], 0⟩
  · exact part002Fold_valid resolveUrl now page nodes ⟨[], keys, [], 0⟩
      (by intro b hb; simp at hb)
  · simpa using part002Fold_errors resolveUrl now page nodes ⟨[], keys, [], 0⟩

/-- One iteration of the page loop of part_002 `scrapePages` (lines 42-112):
a failed fetch appends one `ScrapeError` with the page, its URL and the
message; a successful fetch runs the extraction; the loop always continues
with the next page. -/
def part002Step (resolveUrl : String → String) (now : String)
    (fetch : Nat → PageFetch) (base : String) (st : RunState) (page : Nat) :
    RunState :=
  match fetch page with
  | .ok nodes =>
    let ex := part002ExtractPage resolveUrl now st.keys nodes page
    { st with businesses := st.businesses ++ ex.businesses, keys := ex.keys,
              attempted := st.attempted ++ [page] }
  | .fail m =>
    { st with errors := st.errors ++ [⟨page, pageUrl base page, m⟩],
              attempted := st.attempted ++ [page] }

/-- `scrapePages` from part_002 (lines 33-149): load the previous dataset
(always `[]`, see `loadPreviousBusinesses`), key the dedup set by name, loop
the page range, combine, rewrite `all_businesses.csv` and return the result —
unconditionally, with no empty-result throw. -/
def part002ScrapePages (resolveUrl : String → String) (now : String)
    (fileContent : Option String) (baseUrl : String) (startPage endPage : Nat)
    (fetch : Nat → PageFetch) : PersistentRunResult :=
  let base := normalizeBaseUrl baseUrl
  let previous := loadPreviousBusinesses fileContent
  let keys0 := previous.map (·.name)
  let final := (pageRange startPage endPage).foldl
    (part002Step resolveUrl now fetch base) ⟨[], keys0, [], []⟩
  let combined := previous ++ final.businesses
  { businesses := final.businesses
    totalBusinesses := combined.length
    errors := final.errors
    stats := ⟨endPage + 1 - startPage,
              (endPage + 1 - startPage) - final.errors.length,
              final.errors.length, final.businesses.length, combined.length,
              "all_businesses.csv"⟩
    writtenCsv := writePersistentCsv combined
    attempted := final.attempted }

/-- Whether a page fetch failed. -/
def PageFetch.isFail : PageFetch → Bool
  | .ok _ => false
  | .fail _ => true

/-- The `ScrapeError` page `p` contributes to a part_002 run, if any. -/
def part002PageError (fetch : Nat → PageFetch) (base : String) (page : Nat) :
    Option ScrapeError :=
  match fetch page with
  | .fail m => some ⟨page, pageUrl base page, m⟩
  | .ok _ => none

theorem part002_foldl_char (resolveUrl : String → String) (now : String)
    (fetch : Nat → PageFetch) (base : String) (pages : List Nat)
    (st : RunState) :
    ((pages.foldl (part002Step resolveUrl now fetch base) st).errors =
      st.errors ++ pages.filterMap (part002PageError fetch base)) ∧
    ((pages.foldl (part002Step resolveUrl now fetch base) st).attempted =
      st.attempted ++ pages) := by
  induction pages generalizing st with
  | nil => simp
  | cons page rest ih =>
    simp only [List.foldl_cons, List.filterMap_cons, part002Step,
      part002PageError]
    cases hf : fetch page with
    | ok nodes =>
      have := ih { st with
        businesses := st.businesses ++
          (part002ExtractPage resolveUrl now st.keys nodes page).businesses,
        keys := (part002ExtractPage resolveUrl now st.keys nodes page).keys,
        attempted := st.attempted ++ [page] }
      simpa [List.append_assoc] using this
    | fail m =>
      have := ih { st with
        errors := st.errors ++ [⟨page, pageUrl base page, m⟩],
        attempted := st.attempted ++ [page] }
      simpa [List.append_assoc] using this

theorem range'_filterMap_single {β : Type} (f : Nat → Option β) (b : β) :
    ∀ (n s k : Nat), s ≤ k → k < s + n → f k = some b →
      (∀ p, s ≤ p → p < s + n → p ≠ k → f p = none) →
      (List.range' s n).filterMap f = [b] := by
  intro n
  induction n with
  | zero =>
    intro s k h1 h2 _ _
    omega
  | succ n ih =>
    intro s k h1 h2 hf hnone
    rw [List.range'_succ, List.filterMap_cons]
    rcases eq_or_ne s k with rfl | hne
    · rw [hf]
      have hnil : (List.range' (s + 1) n).filterMap f = [] := by
        rw [List.filterMap_eq_nil_iff]
        intro p hp
        rw [List.mem_range'_1] at hp
        exact hnone p (by omega) (by omega) (by omega)
      rw [hnil]
    · have hs : f s = none := hnone s (le_refl s) (by omega) (fun h => hne h)
      rw [hs]
      exact ih (s + 1) k (by omega) (by omega) hf
        (fun p hp1 hp2 hpk => hnone p (by omega) (by omega) hpk)

/-- Claim C5: when page `k` of the range fails after all fetch strategies and
every other page of the range fetches fine, the run's `errors` list holds
exactly one entry — for page `k`, carrying the page number, its URL and the
message — and every page of the range, including those after `k`, is
attempted in order: the failure does not abort the range. -/
theorem part002_page_failure_isolated (resolveUrl : String → String)
    (now : String) (fileContent : Option String) (baseUrl : String)
    (startPage endPage k : Nat) (m : String) (fetch : Nat → PageFetch)
    (hks : startPage ≤ k) (hke : k ≤ endPage) (hk : fetch k = .fail m)
    (hothers : ∀ p, startPage ≤ p → p ≤ endPage → p ≠ k →
      (fetch p).isFail = false) :
    (part002ScrapePages resolveUrl now fileContent baseUrl startPage endPage
        fetch).errors =
      [⟨k, pageUrl (normalizeBaseUrl baseUrl) k, m⟩] ∧
    (part002ScrapePages resolveUrl now fileContent baseUrl startPage endPage
        fetch).attempted = pageRange startPage endPage := by
  have hchar := part002_foldl_char resolveUrl now fetch (normalizeBaseUrl baseUrl)
    (pageRange startPage endPage) ⟨[], (loadPreviousBusinesses fileContent).map
      (·.name), [], []⟩
  have hsingle : (pageRange startPage endPage).filterMap
      (part002PageError fetch (normalizeBaseUrl baseUrl)) =
      [⟨k, pageUrl (normalizeBaseUrl baseUrl) k, m⟩] := by
    refine range'_filterMap_single _ _ (endPage + 1 - startPage) startPage k hks
      (by omega) ?_ ?_
    · rw [part002PageError, hk]
    · intro p hp1 hp2 hpk
      have hok := hothers p hp1 (by omega) hpk
      rw [part002PageError]
      cases hfp : fetch p with
      | ok nodes => rfl
      | fail mm =>
        rw [hfp] at hok
        exact absurd hok (by simp [PageFetch.isFail])
  constructor
  · rw [part002ScrapePages]
    simp only []
    rw [hchar.1, hsingle]
    rfl
  · rw [part002ScrapePages]
    simp only []
    rw [hchar.2]
    rfl

/-- The fetch of claim C5's witness: page 2 times out, pages 1 and 3 are
fine. -/
def c5Fetch : Nat → PageFetch :=
  fun p =>
    if p = 2 then .fail "timeout of 10000ms exceeded" else .ok [nodeAlpha]

theorem part002_page_failure_isolated_witness :
    (part002ScrapePages id "2024-01-01T00:00:00.000Z" none
        "https://example.com/dir" 1 3 c5Fetch).errors =
      [⟨2, pageUrl (normalizeBaseUrl "https://example.com/dir") 2,
        "timeout of 10000ms exceeded"⟩] ∧
    (part002ScrapePages id "2024-01-01T00:00:00.000Z" none
        "https://example.com/dir" 1 3 c5Fetch).attempted = pageRange 1 3 :=
  part002_page_failure_isolated id "2024-01-01T00:00:00.000Z" none
    "https://example.com/dir" 1 3 2 "timeout of 10000ms exceeded" c5Fetch
    (by omega) (by omega) rfl
    (fun p _ _ hp => by simp [c5Fetch, hp, PageFetch.isFail])

/-! ## The `POST /scrape` handler (src/index.js lines 255-287, part_001 lines
374-417; identical validation logic) -/

/-- A `/scrape` request body: `none` renders an absent (`undefined`) field. -/
structure ScrapeRequest where
  baseUrl : Option String
  startPage : Option Int
  endPage : Option Int
deriving Repr, DecidableEq

/-- What the handler did with a request: a 400 validation response, or the
orchestration's result. -/
inductive HandlerResponse (α : Type) where
  | badRequest (error : String)
  | ran (result : α)
deriving Repr, DecidableEq

/-- Whether a handler response is the 400 validation rejection. -/
def HandlerResponse.isRejected {α : Type} : HandlerResponse α → Bool
  | .badRequest _ => true
  | .ran _ => false

/-- The `/scrape` handler's validation and dispatch: a falsy `baseUrl`
(absent or the empty string — `!baseUrl`) or an undefined page number is
rejected with 400 `Missing parameters`; then `startPage < 1`, `endPage < 1`
or `startPage > endPage` is rejected with 400 `Invalid page range`; otherwise
`scrapePages(baseUrl, startPage, endPage)` runs.  `orch` abstracts the
orchestration, returning its result together with the number of page fetches
it performs; the handler itself performs none, so the second component of a
rejection is `0` network calls. -/
def scrapeHandler {α : Type} (orch : String → Int → Int → α × Nat)
    (req : ScrapeRequest) : HandlerResponse α × Nat :=
  match req.baseUrl, req.startPage, req.endPage with
  | some b, some sp, some ep =>
    if b = "" then (.badRequest "Missing parameters", 0)
    else if sp < 1 ∨ ep < 1 ∨ ep < sp then (.badRequest "Invalid page range", 0)
    else (.ran (orch b sp ep).1, (orch b sp ep).2)
  | _, _, _ => (.badRequest "Missing parameters", 0)

/-- The rejection condition exactly as claim C7 lists it: `baseUrl` missing,
`startPage` or `endPage` undefined, a page number below 1, or
`startPage` above `endPage`. -/
def c7ClaimReject (req : ScrapeRequest) : Prop :=
  req.baseUrl = none ∨ req.startPage = none ∨ req.endPage = none ∨
  (∃ sp, req.startPage = some sp ∧ sp < 1) ∨
  (∃ ep, req.endPage = some ep ∧ ep < 1) ∨
  (∃ sp ep, req.startPage = some sp ∧ req.endPage = some ep ∧ ep < sp)

/-- The amended rejection condition: the claim's list, plus an empty
`baseUrl`, which the handler's falsy check also rejects as missing. -/
def c7AmendedReject (req : ScrapeRequest) : Prop :=
  c7ClaimReject req ∨ req.baseUrl = some ""

/-- Claim C7, amended (`baseUrl` missing **or empty**): a request is answered
with the 400 validation response exactly when the amended condition holds;
every rejection performs zero page fetches; and every request passing the
checks starts the orchestration with the request's own parameters. -/
theorem scrape_validation_characterized {α : Type}
    (orch : String → Int → Int → α × Nat) (req : ScrapeRequest) :
    ((scrapeHandler orch req).1.isRejected = true ↔ c7AmendedReject req) ∧
    ((scrapeHandler orch req).1.isRejected = true →
      (scrapeHandler orch req).2 = 0) ∧
    (∀ b sp ep, req = ⟨some b, some sp, some ep⟩ → ¬ c7AmendedReject req →
      scrapeHandler orch req = (.ran (orch b sp ep).1, (orch b sp ep).2)) := by
  obtain ⟨ob, osp, oep⟩ := req
  cases ob with
  | none =>
    simp [scrapeHandler, c7AmendedReject, c7ClaimReject, HandlerResponse.isRejected]
  | some b =>
    cases osp with
    | none =>
      simp [scrapeHandler, c7AmendedReject, c7ClaimReject, HandlerResponse.isRejected]
    | some sp =>
      cases oep with
      | none =>
        simp [scrapeHandler, c7AmendedReject, c7ClaimReject, HandlerResponse.isRejected]
      | some ep =>
        by_cases hb : b = ""
        · subst hb
          simp [scrapeHandler, c7AmendedReject, HandlerResponse.isRejected]
        · by_cases hrange : sp < 1 ∨ ep < 1 ∨ ep < sp
          · refine ⟨?_, ?_, ?_⟩
            · simp only [scrapeHandler, if_neg hb, if_pos hrange,
                HandlerResponse.isRejected, c7AmendedReject, c7ClaimReject]
              constructor
              · intro _
                rcases hrange with h | h | h
                · exact Or.inl (Or.inr (Or.inr (Or.inr (Or.inl ⟨sp, rfl, h⟩))))
                · exact Or.inl (Or.inr (Or.inr (Or.inr (Or.inr
                    (Or.inl ⟨ep, rfl, h⟩)))))
                · exact Or.inl (Or.inr (Or.inr (Or.inr (Or.inr
                    (Or.inr ⟨sp, ep, rfl, rfl, h⟩)))))
              · intro _
                trivial
            · intro _
              simp only [scrapeHandler, if_neg hb, if_pos hrange]
            · intro b' sp' ep' heq hnot
              exfalso
              apply hnot
              cases heq
              left
              rcases hrange with h | h | h
              · exact Or.inr (Or.inr (Or.inr (Or.inl ⟨sp, rfl, h⟩)))
              · exact Or.inr (Or.inr (Or.inr (Or.inr (Or.inl ⟨ep, rfl, h⟩))))
              · exact Or.inr (Or.inr (Or.inr (Or.inr (Or.inr
                  ⟨sp, ep, rfl, rfl, h⟩))))
          · have hrun : scrapeHandler orch ⟨some b, some sp, some ep⟩ =
                (.ran (orch b sp ep).1, (orch b sp ep).2) := by
              simp only [scrapeHandler, if_neg hb, if_neg hrange]
            refine ⟨?_, ?_, ?_⟩
            · rw [hrun]
              simp only [HandlerResponse.isRejected, c7AmendedReject,
                c7ClaimReject]
              constructor
              · intro h
                cases h
              · rintro (⟨h | h | h | ⟨sp', hsp, hlt⟩ | ⟨ep', hep, hlt⟩ |
                  ⟨sp', ep', hsp, hep, hlt⟩⟩ | hb')
                · cases h
                · cases h
                · cases h
                · cases hsp
                  exact absurd (Or.inl hlt) hrange
                · cases hep
                  exact absurd (Or.inr (Or.inl hlt)) hrange
                · cases hsp
                  cases hep
                  exact absurd (Or.inr (Or.inr hlt)) hrange
                · exact absurd (Option.some.inj hb') hb
            · rw [hrun]
              intro h
              cases h
            · intro b' sp' ep' heq _
              cases heq
              exact hrun

/-- Claim C7's counterexample: the request `{ baseUrl: "", startPage: 1,
endPage: 1 }` passes every check the claim lists — `baseUrl` is present,
both pages are defined, at least 1 and ordered — yet the handler rejects it
with the 400 `Missing parameters` response (the falsy check `!baseUrl`) and
the orchestration never begins. -/
theorem empty_baseUrl_rejected_despite_claim :
    ¬ c7ClaimReject ⟨some "", some 1, some 1⟩ ∧
    scrapeHandler (fun _ _ _ => ((), 1)) ⟨some "", some 1, some 1⟩ =
      (.badRequest "Missing parameters", 0) := by
  constructor
  · rintro (h | h | h | ⟨sp, hsp, hlt⟩ | ⟨ep, hep, hlt⟩ |
      ⟨sp, ep, hsp, hep, hlt⟩)
    · cases h
    · cases h
    · cases h
    · cases hsp
      omega
    · cases hep
      omega
    · cases hsp
      cases hep
      omega
  · rfl

end OtgScraper
